import Mathlib

/-!
Verification of the paper-podcast pipeline orchestrator and its persisted
state machine (source: `src/pipeline/paper_workflow.py`,
`src/pipeline/paper_pipeline.py`, `src/models/paper.py`).

The Python `PaperWorkflow` class is built on the `statemachine` library:
states are declared as `State(...)` fields and transitions as
`source.to(target)` events.  Invoking an event whose source state does not
match the machine's current state raises `TransitionNotAllowed` and leaves
the current state unchanged.  We embed the machine as an enumerated state
type, an enumerated event type, and a transition table
`transition : PaperState → Event → Option PaperState` where `none` models
the raised `TransitionNotAllowed` error.
-/

namespace PaperPodcasts

/-- The eleven states declared in `PaperWorkflow` (paper_workflow.py, lines
27-37).  `completed` and `failed` are declared final. -/
inductive PaperState where
  | new
  | downloading
  | downloaded
  | extracting
  | extracted
  | summarizing
  | summarized
  | generating_audio
  | audio_generated
  | completed
  | failed
deriving DecidableEq, Repr, Fintype

/-- The ten named transition events declared in `PaperWorkflow`
(paper_workflow.py, lines 40-65). -/
inductive Event where
  | start_download
  | complete_download
  | start_extract
  | complete_extract
  | start_summarize
  | complete_summarize
  | start_audio_generation
  | complete_audio_generation
  | finalize
  | mark_failed
deriving DecidableEq, Repr, Fintype

open PaperState Event

/-- The transition table of `PaperWorkflow`, read off the event
declarations (paper_workflow.py, lines 40-65).  `mark_failed` is declared
from each of the nine non-final states; there is no `failed.to(failed)`
edge.  `none` means the `statemachine` library raises
`TransitionNotAllowed`. -/
def transition : PaperState → Event → Option PaperState
  | .new, .start_download => some .downloading
  | .downloading, .complete_download => some .downloaded
  | .downloaded, .start_extract => some .extracting
  | .extracting, .complete_extract => some .extracted
  | .extracted, .start_summarize => some .summarizing
  | .summarizing, .complete_summarize => some .summarized
  | .summarized, .start_audio_generation => some .generating_audio
  | .generating_audio, .complete_audio_generation => some .audio_generated
  | .audio_generated, .finalize => some .completed
  | .new, .mark_failed => some .failed
  | .downloading, .mark_failed => some .failed
  | .downloaded, .mark_failed => some .failed
  | .extracting, .mark_failed => some .failed
  | .extracted, .mark_failed => some .failed
  | .summarizing, .mark_failed => some .failed
  | .summarized, .mark_failed => some .failed
  | .generating_audio, .mark_failed => some .failed
  | .audio_generated, .mark_failed => some .failed
  | _, _ => none

/-- A call of an event on the machine: the library either performs the
transition and returns, or raises `TransitionNotAllowed` leaving the
current state untouched.  The second component is the machine's current
state after the call. -/
def callEvent (s : PaperState) (e : Event) :
    Except String PaperState × PaperState :=
  match transition s e with
  | some t => (Except.ok t, t)
  | none => (Except.error "TransitionNotAllowed", s)

/-- Guard `can_download` (paper_workflow.py, line 143). -/
def can_download (s : PaperState) : Bool := s == .new

/-- Guard `can_extract` (paper_workflow.py, line 147). -/
def can_extract (s : PaperState) : Bool := s == .downloaded

/-- Guard `can_summarize` (paper_workflow.py, line 151). -/
def can_summarize (s : PaperState) : Bool := s == .extracted

/-- Guard `can_generate_audio` (paper_workflow.py, line 156). -/
def can_generate_audio (s : PaperState) : Bool := s == .summarized

/-- Guard `can_finalize` (paper_workflow.py, line 160). -/
def can_finalize (s : PaperState) : Bool := s == .audio_generated

/-- `is_terminal` (paper_workflow.py, line 173): completed or failed. -/
def is_terminal (s : PaperState) : Bool :=
  match s with
  | .completed => true
  | .failed => true
  | _ => false

/-- Applying one event to the machine, with a rejected (out-of-order)
event leaving the state unchanged, as the library guarantees. -/
def step (s : PaperState) (e : Event) : PaperState :=
  (transition s e).getD s

/-- The sequence of states visited when a list of events is applied in
order (each rejected event leaves the state in place). -/
def trajectory : PaperState → List Event → List PaperState
  | s, [] => [s]
  | s, e :: es => s :: trajectory (step s e) es

/-- The fixed forward chain of the lifecycle:
new → downloading → downloaded → extracting → extracted → summarizing →
summarized → generating_audio → audio_generated → completed.  `failed` and
`completed` have no chain successor. -/
def chainNext : PaperState → Option PaperState
  | .new => some .downloading
  | .downloading => some .downloaded
  | .downloaded => some .extracting
  | .extracting => some .extracted
  | .extracted => some .summarizing
  | .summarizing => some .summarized
  | .summarized => some .generating_audio
  | .generating_audio => some .audio_generated
  | .audio_generated => some .completed
  | .completed => none
  | .failed => none

lemma step_forward (s : PaperState) (e : Event) :
    step s e = s ∨ step s e = .failed ∨ chainNext s = some (step s e) := by
  revert s e; decide

lemma trajectory_head (s : PaperState) (es : List Event) :
    (trajectory s es).head? = some s := by
  cases es <;> rfl

/-- C1: for every sequence of stage transitions applied to the workflow
state machine, each successive status is either unchanged (the event was
rejected), the immediate successor on the fixed chain
new → downloading → downloaded → extracting → extracted → summarizing →
summarized → generating_audio → audio_generated → completed, or the
`failed` state; in particular the status never moves backwards along the
chain. -/
theorem C1_linear_progression (s : PaperState) (es : List Event) :
    List.Chain' (fun a b => b = a ∨ b = PaperState.failed ∨ chainNext a = some b)
      (trajectory s es) := by
  induction es generalizing s with
  | nil => simp [trajectory]
  | cons e es ih =>
    rw [trajectory]
    refine List.Chain'.cons' (ih (step s e)) ?_
    intro y hy
    rw [trajectory_head] at hy
    cases hy
    rcases step_forward s e with h | h | h
    · exact Or.inl h
    · exact Or.inr (Or.inl h)
    · exact Or.inr (Or.inr h)

/-- C3 counterexample: the claim asserts that calling `mark_failed` while
already in `failed` is a no-op that does not raise.  In the code the
`mark_failed` event (paper_workflow.py, lines 55-65) has no
`failed.to(failed)` edge, so from `failed` the library raises
`TransitionNotAllowed`: the transition table has no entry, refuting
`transition failed mark_failed = some failed`. -/
theorem C3_mark_failed_counterexample :
    ¬ (transition PaperState.failed Event.mark_failed = some PaperState.failed) := by
  decide

/-- C3 amended: `mark_failed` succeeds (moving to `failed`) from every
non-terminal state, but from the terminal states — `failed` itself
included — it is rejected with a `TransitionNotAllowed` error (the state
is left unchanged); it is not a silent no-op. -/
theorem C3_mark_failed_amended (s : PaperState) :
    transition s Event.mark_failed =
      if is_terminal s then none else some PaperState.failed := by
  revert s; decide

/-- The events of the form `start_X` or `complete_X` (excluding `finalize`
and `mark_failed`), with the single source state each is declared from. -/
def isStartOrComplete : Event → Bool
  | .finalize => false
  | .mark_failed => false
  | _ => true

/-- The required predecessor (source) state of each single-source event,
read off paper_workflow.py lines 40-52. -/
def requiredPredecessor : Event → Option PaperState
  | .start_download => some .new
  | .complete_download => some .downloading
  | .start_extract => some .downloaded
  | .complete_extract => some .extracting
  | .start_summarize => some .extracted
  | .complete_summarize => some .summarizing
  | .start_audio_generation => some .summarized
  | .complete_audio_generation => some .generating_audio
  | .finalize => some .audio_generated
  | .mark_failed => none

lemma transition_none_of_mismatch :
    ∀ (s : PaperState) (e : Event), isStartOrComplete e = true →
      requiredPredecessor e ≠ some s → transition s e = none := by
  decide

/-- C4: invoking any `start_X` or `complete_X` event whose required
predecessor state does not match the machine's current state fails with
the `TransitionNotAllowed` error (the spec's "InvalidTransition") and
leaves the current state unchanged. -/
theorem C4_out_of_order_rejected (s : PaperState) (e : Event)
    (hsc : isStartOrComplete e = true)
    (hne : requiredPredecessor e ≠ some s) :
    callEvent s e = (Except.error "TransitionNotAllowed", s) := by
  have ht := transition_none_of_mismatch s e hsc hne
  simp [callEvent, ht]

/-- Witness for C4 at a concrete out-of-order call: `start_download`
invoked while the machine is in `extracted`. -/
theorem C4_out_of_order_rejected_witness :
    isStartOrComplete Event.start_download = true ∧
    requiredPredecessor Event.start_download ≠ some PaperState.extracted ∧
    callEvent PaperState.extracted Event.start_download =
      (Except.error "TransitionNotAllowed", PaperState.extracted) :=
  ⟨rfl, by decide,
    C4_out_of_order_rejected PaperState.extracted Event.start_download rfl (by decide)⟩

/-!
## Data model (src/models)

Datetimes are abstracted as opaque timestamps (`Nat`); filesystem paths are
strings joined with "/".  The claims under verification do not depend on
the internal structure of either.
-/

abbrev DateTime := Nat

abbrev PathStr := String

/-- `Author` (paper.py, lines 10-14). -/
structure Author where
  name : String
  affiliation : Option String
deriving DecidableEq, Repr

/-- `Paper` (paper.py, lines 17-42).  The `status` field is a string in
Python whose value is always one of the state machine's state names (the
spec's §3 invariant); it is embedded as `PaperState` directly. -/
structure Paper where
  arxiv_id : String
  title : String
  authors : List Author
  abstract : String
  published : DateTime
  updated : DateTime
  categories : List String
  primary_category : String
  pdf_url : String
  comment : Option String
  journal_ref : Option String
  doi : Option String
  downloaded_at : Option DateTime
  save_dir : Option String
  pdf_filename : Option String
  status : PaperState
  listen_status : String
  last_listened_at : Option DateTime
deriving DecidableEq, Repr

/-- `ExtractedContent` (extracted_content.py). -/
structure ExtractedContent where
  markdown : String
deriving DecidableEq, Repr

/-- `DownloadResult` (download_result.py). -/
structure DownloadResult where
  pdf_path : PathStr
  metadata_path : PathStr
  save_dir : PathStr
  pdf_filename : String
  metadata_filename : String
  downloaded_at : DateTime
deriving DecidableEq, Repr

/-- `ExtractionResult` (extraction_result.py). -/
structure ExtractionResult where
  content : ExtractedContent
  saved_path : PathStr
  extracted_at : DateTime
  character_count : Nat
deriving DecidableEq, Repr

/-- `SummaryResult` (summary_result.py). -/
structure SummaryResult where
  summary_text : String
  saved_path : PathStr
  summarized_at : DateTime
deriving DecidableEq, Repr

/-- `AudioResult` (audio_result.py); the optional float duration is
abstracted as an opaque `Nat`. -/
structure AudioResult where
  audio_path : PathStr
  generated_at : DateTime
  audio_duration_seconds : Option Nat
deriving DecidableEq, Repr

/-- Path helper: the final component of a "/"-joined path
(`Path(...).name`). -/
def lastComponent (p : PathStr) : String :=
  (p.splitOn "/").getLast!

/-- Path helper: `Path(...).parent` — the path without its final
component. -/
def parentDir (p : PathStr) : PathStr :=
  String.intercalate "/" (p.splitOn "/").dropLast

/-- `Path(name).stem` for a bare file name: the name without its last
extension. -/
def stem (name : String) : String :=
  match name.splitOn "." with
  | [] => name
  | [_] => name
  | parts => String.intercalate "." parts.dropLast

/-- `Path(p).stem` for a full path. -/
def pathStem (p : PathStr) : String :=
  stem (lastComponent p)

/-!
## Filesystem snapshot and external collaborators

The orchestrator's lazy reconstruction reads the paper's artifact directory
`{storage_dir}/papers/{arxiv_id}`.  A `PaperDirFS` is a snapshot of that
directory: which sub-directories exist and what the relevant globs return
(listed in glob order; the code always takes the first match).  A stage
never re-reads an artifact it wrote in the same call (its in-memory result
shadows the disk), so a static snapshot is faithful for one invocation.
-/

/-- A file name with its modification time. -/
structure FileEntry where
  name : String
  mtime : DateTime
deriving DecidableEq, Repr

/-- A text file with its content and modification time. -/
structure TextFileEntry where
  name : String
  content : String
  mtime : DateTime
deriving DecidableEq, Repr

/-- Snapshot of `{storage_dir}/papers/{arxiv_id}` and its sub-directories. -/
structure PaperDirFS where
  dirExists : Bool
  pdfFiles : List FileEntry
  jsonFiles : List FileEntry
  extractedDirExists : Bool
  mdFiles : List TextFileEntry
  summariesDirExists : Bool
  summaryFiles : List TextFileEntry
  audioDirExists : Bool
  mp3Files : List FileEntry
deriving DecidableEq, Repr

/-- The four external collaborator calls the orchestrator makes
(spec §1: source fetcher, content extractor, summarizer, narrator).  Each
is an arbitrary function of the arguments the code passes it; `Except`
models the call either returning a result or raising an exception with a
message. -/
structure Collaborators where
  download_and_save_metadata : Paper → PathStr → Except String DownloadResult
  extract_and_save : PathStr → PathStr → String → Except String ExtractionResult
  summarize_paper : Paper → String → PathStr → Except String SummaryResult
  generate_audio : String → PathStr → String → Except String AudioResult

/-- Which collaborator a stage invoked, in order of invocation. -/
inductive StageTag where
  | download
  | extract
  | summarize
  | audio
deriving DecidableEq, Repr

/-- The mutable state of one `process_paper` invocation: the workflow's
current state, the stage results gathered so far (the fields of
`PipelineResult`), the error list, plus two observation logs: which
collaborators were invoked and the last status written by
`_save_paper_state` (the persisted `status`). -/
structure RunState where
  wf : PaperState
  download : Option DownloadResult
  extraction : Option ExtractionResult
  summary : Option SummaryResult
  audio : Option AudioResult
  errors : List String
  invoked : List StageTag
  persisted : Option PaperState
deriving DecidableEq, Repr

/-- The run state at the top of `process_paper`: fresh `PipelineResult`
with a workflow seeded from the paper's `status`. -/
def initRunState (wf0 : PaperState) : RunState :=
  ⟨wf0, none, none, none, none, [], [], none⟩

/-- The outcome of a block of statements inside the `try`: the run state
reached, and the pending exception if one was raised. -/
structure StageOut where
  st : RunState
  exn : Option String
deriving DecidableEq, Repr

/-- Sequencing inside the `try` block: once an exception is pending, the
remaining statements are skipped. -/
def andThen (o : StageOut) (f : RunState → StageOut) : StageOut :=
  match o.exn with
  | some _ => o
  | none => f o.st

/-- A transition method call on the workflow: `ok` with the new state, or
the raised `TransitionNotAllowed` message. -/
def stepTransition (wf : PaperState) (e : Event) : Except String PaperState :=
  match transition wf e with
  | some t => Except.ok t
  | none => Except.error "TransitionNotAllowed"

/-- `_save_paper_state` (paper_pipeline.py, lines 541-552): persists the
paper, whose `status` field the state machine keeps in sync with the
current state; write failures are swallowed (logged only).  Modelled as
recording the current state as the persisted status. -/
def savePaperState (st : RunState) : RunState :=
  { st with persisted := some st.wf }

/-- `_load_download_result` (paper_pipeline.py, lines 409-442). -/
def _load_download_result (storage_dir : PathStr) (paper : Paper)
    (fs : PaperDirFS) : Option DownloadResult :=
  let download_dir := storage_dir ++ "/papers/" ++ paper.arxiv_id
  if fs.dirExists then
    match fs.pdfFiles, fs.jsonFiles with
    | pdf :: _, js :: _ =>
        some { pdf_path := download_dir ++ "/" ++ pdf.name
             , metadata_path := download_dir ++ "/" ++ js.name
             , save_dir := download_dir
             , pdf_filename := pdf.name
             , metadata_filename := js.name
             , downloaded_at := pdf.mtime }
    | _, _ => none
  else none

/-- `_load_extraction_result` (paper_pipeline.py, lines 444-476): reads the
first markdown artifact back from storage. -/
def _load_extraction_result (storage_dir : PathStr) (paper : Paper)
    (fs : PaperDirFS) : Option ExtractionResult :=
  if fs.extractedDirExists then
    match fs.mdFiles with
    | md :: _ =>
        some { content := ⟨md.content⟩
             , saved_path := storage_dir ++ "/papers/" ++ paper.arxiv_id
                 ++ "/extracted/" ++ md.name
             , extracted_at := md.mtime
             , character_count := md.content.length }
    | [] => none
  else none

/-- `_load_summary_result` (paper_pipeline.py, lines 478-509). -/
def _load_summary_result (storage_dir : PathStr) (paper : Paper)
    (fs : PaperDirFS) : Option SummaryResult :=
  if fs.summariesDirExists then
    match fs.summaryFiles with
    | sm :: _ =>
        some { summary_text := sm.content
             , saved_path := storage_dir ++ "/papers/" ++ paper.arxiv_id
                 ++ "/summaries/" ++ sm.name
             , summarized_at := sm.mtime }
    | [] => none
  else none

/-- `_stage_download` (paper_pipeline.py, lines 210-241): start the
transition, invoke the fetcher, complete the transition, persist.  Any
raised exception propagates to the caller. -/
def _stage_download (C : Collaborators) (storage_dir : PathStr)
    (paper : Paper) (st : RunState) : StageOut :=
  match stepTransition st.wf .start_download with
  | .error e => ⟨st, some e⟩
  | .ok wf1 =>
    let st1 := { st with wf := wf1, invoked := st.invoked ++ [StageTag.download] }
    let download_dir := storage_dir ++ "/papers/" ++ paper.arxiv_id
    match C.download_and_save_metadata paper download_dir with
    | .error e => ⟨st1, some e⟩
    | .ok r =>
      match stepTransition st1.wf .complete_download with
      | .error e => ⟨st1, some e⟩
      | .ok wf2 => ⟨savePaperState { st1 with wf := wf2, download := some r }, none⟩

/-- `_stage_extract` (paper_pipeline.py, lines 243-282). -/
def _stage_extract (C : Collaborators) (paper : Paper)
    (download : DownloadResult) (st : RunState) : StageOut :=
  match stepTransition st.wf .start_extract with
  | .error e => ⟨st, some e⟩
  | .ok wf1 =>
    let st1 := { st with wf := wf1, invoked := st.invoked ++ [StageTag.extract] }
    let extract_dir := download.save_dir ++ "/extracted"
    let base_filename := pathStem download.pdf_filename
    match C.extract_and_save download.pdf_path extract_dir base_filename with
    | .error e => ⟨st1, some e⟩
    | .ok r =>
      match stepTransition st1.wf .complete_extract with
      | .error e => ⟨st1, some e⟩
      | .ok wf2 => ⟨savePaperState { st1 with wf := wf2, extraction := some r }, none⟩

/-- `_stage_summarize` (paper_pipeline.py, lines 284-321). -/
def _stage_summarize (C : Collaborators) (paper : Paper)
    (extraction : ExtractionResult) (st : RunState) : StageOut :=
  match stepTransition st.wf .start_summarize with
  | .error e => ⟨st, some e⟩
  | .ok wf1 =>
    let st1 := { st with wf := wf1, invoked := st.invoked ++ [StageTag.summarize] }
    let summary_dir := parentDir (parentDir extraction.saved_path) ++ "/summaries"
    match C.summarize_paper paper extraction.content.markdown summary_dir with
    | .error e => ⟨st1, some e⟩
    | .ok r =>
      match stepTransition st1.wf .complete_summarize with
      | .error e => ⟨st1, some e⟩
      | .ok wf2 => ⟨savePaperState { st1 with wf := wf2, summary := some r }, none⟩

/-- `_stage_audio` (paper_pipeline.py, lines 323-362). -/
def _stage_audio (C : Collaborators) (paper : Paper)
    (summary : SummaryResult) (st : RunState) : StageOut :=
  match stepTransition st.wf .start_audio_generation with
  | .error e => ⟨st, some e⟩
  | .ok wf1 =>
    let st1 := { st with wf := wf1, invoked := st.invoked ++ [StageTag.audio] }
    let audio_dir := parentDir (parentDir summary.saved_path) ++ "/audio"
    let base_filename := (pathStem summary.saved_path).replace "summary_" ""
    match C.generate_audio summary.summary_text audio_dir base_filename with
    | .error e => ⟨st1, some e⟩
    | .ok r =>
      match stepTransition st1.wf .complete_audio_generation with
      | .error e => ⟨st1, some e⟩
      | .ok wf2 => ⟨savePaperState { st1 with wf := wf2, audio := some r }, none⟩

/-- The download step of the `try` block (paper_pipeline.py, lines
161-163): run the stage if requested and permitted by the guard. -/
def downloadPhase (C : Collaborators) (storage_dir : PathStr)
    (paper : Paper) (stages : List String) (st : RunState) : StageOut :=
  if "download" ∈ stages ∧ can_download st.wf = true then
    _stage_download C storage_dir paper st
  else ⟨st, none⟩

/-- The `if not result.download: result.download = self._load_download_result(paper)`
line of the extract step (paper_pipeline.py, lines 167-168). -/
def lazyDownload (storage_dir : PathStr) (paper : Paper) (fs : PaperDirFS)
    (st : RunState) : RunState :=
  if st.download.isNone then
    { st with download := _load_download_result storage_dir paper fs }
  else st

/-- The lazy reconstruction line of the summarize step (paper_pipeline.py,
lines 174-175). -/
def lazyExtraction (storage_dir : PathStr) (paper : Paper) (fs : PaperDirFS)
    (st : RunState) : RunState :=
  if st.extraction.isNone then
    { st with extraction := _load_extraction_result storage_dir paper fs }
  else st

/-- The lazy reconstruction line of the audio step (paper_pipeline.py,
lines 183-184). -/
def lazySummary (storage_dir : PathStr) (paper : Paper) (fs : PaperDirFS)
    (st : RunState) : RunState :=
  if st.summary.isNone then
    { st with summary := _load_summary_result storage_dir paper fs }
  else st

@[simp] lemma lazyDownload_wf (storage_dir : PathStr) (paper : Paper)
    (fs : PaperDirFS) (st : RunState) :
    (lazyDownload storage_dir paper fs st).wf = st.wf := by
  unfold lazyDownload; split <;> rfl

@[simp] lemma lazyDownload_errors (storage_dir : PathStr) (paper : Paper)
    (fs : PaperDirFS) (st : RunState) :
    (lazyDownload storage_dir paper fs st).errors = st.errors := by
  unfold lazyDownload; split <;> rfl

@[simp] lemma lazyDownload_invoked (storage_dir : PathStr) (paper : Paper)
    (fs : PaperDirFS) (st : RunState) :
    (lazyDownload storage_dir paper fs st).invoked = st.invoked := by
  unfold lazyDownload; split <;> rfl

@[simp] lemma lazyDownload_audio (storage_dir : PathStr) (paper : Paper)
    (fs : PaperDirFS) (st : RunState) :
    (lazyDownload storage_dir paper fs st).audio = st.audio := by
  unfold lazyDownload; split <;> rfl

@[simp] lemma lazyExtraction_wf (storage_dir : PathStr) (paper : Paper)
    (fs : PaperDirFS) (st : RunState) :
    (lazyExtraction storage_dir paper fs st).wf = st.wf := by
  unfold lazyExtraction; split <;> rfl

@[simp] lemma lazyExtraction_errors (storage_dir : PathStr) (paper : Paper)
    (fs : PaperDirFS) (st : RunState) :
    (lazyExtraction storage_dir paper fs st).errors = st.errors := by
  unfold lazyExtraction; split <;> rfl

@[simp] lemma lazyExtraction_invoked (storage_dir : PathStr) (paper : Paper)
    (fs : PaperDirFS) (st : RunState) :
    (lazyExtraction storage_dir paper fs st).invoked = st.invoked := by
  unfold lazyExtraction; split <;> rfl

@[simp] lemma lazyExtraction_audio (storage_dir : PathStr) (paper : Paper)
    (fs : PaperDirFS) (st : RunState) :
    (lazyExtraction storage_dir paper fs st).audio = st.audio := by
  unfold lazyExtraction; split <;> rfl

@[simp] lemma lazySummary_wf (storage_dir : PathStr) (paper : Paper)
    (fs : PaperDirFS) (st : RunState) :
    (lazySummary storage_dir paper fs st).wf = st.wf := by
  unfold lazySummary; split <;> rfl

@[simp] lemma lazySummary_errors (storage_dir : PathStr) (paper : Paper)
    (fs : PaperDirFS) (st : RunState) :
    (lazySummary storage_dir paper fs st).errors = st.errors := by
  unfold lazySummary; split <;> rfl

@[simp] lemma lazySummary_invoked (storage_dir : PathStr) (paper : Paper)
    (fs : PaperDirFS) (st : RunState) :
    (lazySummary storage_dir paper fs st).invoked = st.invoked := by
  unfold lazySummary; split <;> rfl

@[simp] lemma lazySummary_audio (storage_dir : PathStr) (paper : Paper)
    (fs : PaperDirFS) (st : RunState) :
    (lazySummary storage_dir paper fs st).audio = st.audio := by
  unfold lazySummary; split <;> rfl

/-- The extract step of the `try` block (paper_pipeline.py, lines
165-170): lazily reconstruct the download result if it is not in memory,
then run the stage; a reconstruction miss silently skips the stage. -/
def extractPhase (C : Collaborators) (storage_dir : PathStr)
    (fs : PaperDirFS) (paper : Paper) (stages : List String)
    (st : RunState) : StageOut :=
  if "extract" ∈ stages ∧ can_extract st.wf = true then
    let st := lazyDownload storage_dir paper fs st
    match st.download with
    | some d => _stage_extract C paper d st
    | none => ⟨st, none⟩
  else ⟨st, none⟩

/-- The summarize step of the `try` block (paper_pipeline.py, lines
172-179). -/
def summarizePhase (C : Collaborators) (storage_dir : PathStr)
    (fs : PaperDirFS) (paper : Paper) (stages : List String)
    (st : RunState) : StageOut :=
  if "summarize" ∈ stages ∧ can_summarize st.wf = true then
    let st := lazyExtraction storage_dir paper fs st
    match st.extraction with
    | some x => _stage_summarize C paper x st
    | none => ⟨st, none⟩
  else ⟨st, none⟩

/-- The audio step of the `try` block (paper_pipeline.py, lines
181-186). -/
def audioPhase (C : Collaborators) (storage_dir : PathStr)
    (fs : PaperDirFS) (paper : Paper) (stages : List String)
    (st : RunState) : StageOut :=
  if "audio" ∈ stages ∧ can_generate_audio st.wf = true then
    let st := lazySummary storage_dir paper fs st
    match st.summary with
    | some sm => _stage_audio C paper sm st
    | none => ⟨st, none⟩
  else ⟨st, none⟩

/-- The finalize step of the `try` block (paper_pipeline.py, lines
188-191). -/
def finalizePhase (st : RunState) : StageOut :=
  if can_finalize st.wf = true then
    match stepTransition st.wf .finalize with
    | .error e => ⟨st, some e⟩
    | .ok wf1 => ⟨savePaperState { st with wf := wf1 }, none⟩
  else ⟨st, none⟩

/-- The `try` block of `process_paper` (paper_pipeline.py, lines 160-191):
the four guarded stages with lazy reconstruction of missing prerequisite
results, then the finalize check; once a statement raises, the rest of the
block is skipped. -/
def tryBlock (C : Collaborators) (storage_dir : PathStr) (fs : PaperDirFS)
    (paper : Paper) (stages : List String) (st0 : RunState) : StageOut :=
  andThen (andThen (andThen (andThen
    (downloadPhase C storage_dir paper stages st0)
    (extractPhase C storage_dir fs paper stages))
    (summarizePhase C storage_dir fs paper stages))
    (audioPhase C storage_dir fs paper stages))
    finalizePhase

/-- The default stage list of `process_paper` (paper_pipeline.py,
line 154). -/
def defaultStages : List String := ["download", "extract", "summarize", "audio"]

/-- The `stages = stages or [...]` line (paper_pipeline.py, line 154):
both an omitted argument (`None`) and an explicitly empty list are falsy
and replaced with the full default list. -/
def normalizeStages : Option (List String) → List String
  | none => defaultStages
  | some [] => defaultStages
  | some (s :: rest) => s :: rest

/-- The `except` handler of `process_paper` (paper_pipeline.py, lines
193-198): a pending exception is appended to the error list, the machine
is marked failed and the paper persisted.  The `Except` result models
whether `process_paper` returns normally (`ok` with the final run state)
or lets an exception escape to the caller: the only way that can happen
is the handler's own `mark_failed` call raising `TransitionNotAllowed`. -/
def exceptHandler (o : StageOut) : Except String RunState :=
  match o.exn with
  | none => Except.ok o.st
  | some e =>
    let st := { o.st with errors := o.st.errors ++ ["Pipeline error: " ++ e] }
    match transition st.wf .mark_failed with
    | some wf1 => Except.ok (savePaperState { st with wf := wf1 })
    | none => Except.error "TransitionNotAllowed"

/-- `process_paper` (paper_pipeline.py, lines 131-208): normalize the
stage list, run the `try` block from the paper's current status, and
apply the `except` handler to whatever it left pending. -/
def process_paper (C : Collaborators) (storage_dir : PathStr)
    (fs : PaperDirFS) (paper : Paper) (stagesArg : Option (List String)) :
    Except String RunState :=
  exceptHandler (tryBlock C storage_dir fs paper (normalizeStages stagesArg)
    (initRunState paper.status))

/-- `resume_paper` (paper_pipeline.py, lines 364-407): computes the
remaining stage list from the current state and delegates to
`process_paper`.  In the `audio_generated` branch the local workflow's
`finalize()` syncs the model's `status` to `completed` before the
delegation. -/
def resume_paper (C : Collaborators) (storage_dir : PathStr)
    (fs : PaperDirFS) (paper : Paper) : Except String RunState :=
  match paper.status with
  | .new => process_paper C storage_dir fs paper
      (some ["download", "extract", "summarize", "audio"])
  | .downloaded => process_paper C storage_dir fs paper
      (some ["extract", "summarize", "audio"])
  | .extracted => process_paper C storage_dir fs paper
      (some ["summarize", "audio"])
  | .summarized => process_paper C storage_dir fs paper (some ["audio"])
  | .audio_generated => process_paper C storage_dir fs
      { paper with status := .completed } (some [])
  | .failed => process_paper C storage_dir fs paper (some [])
  | _ => process_paper C storage_dir fs paper (some [])

/-!
## The error surface of `process_paper`

An exception can only be pending while the machine sits in a state from
which `mark_failed` is legal; this is the invariant that makes the
`except` handler of `process_paper` total (it never raises a secondary
`TransitionNotAllowed`).
-/

/-- Whether `mark_failed` is legal from a state. -/
def canMarkFailed (s : PaperState) : Bool :=
  (transition s .mark_failed).isSome

/-- Invariant carried through the `try` block: no error entries are
recorded inside the block, and a pending exception can only exist while
`mark_failed` is legal from the current state. -/
def GoodOut (o : StageOut) : Prop :=
  o.st.errors = [] ∧ ∀ e, o.exn = some e → canMarkFailed o.st.wf = true

lemma goodOut_andThen {o : StageOut} {f : RunState → StageOut}
    (h1 : GoodOut o) (h2 : ∀ st, st.errors = [] → GoodOut (f st)) :
    GoodOut (andThen o f) := by
  unfold andThen
  cases ho : o.exn with
  | some e => exact h1
  | none => exact h2 o.st h1.1

lemma goodOut_stage_download (C : Collaborators) (storage_dir : PathStr)
    (p : Paper) (st : RunState) (h : st.wf = PaperState.new)
    (he : st.errors = []) :
    GoodOut (_stage_download C storage_dir p st) := by
  unfold _stage_download
  rw [h]
  cases hC : C.download_and_save_metadata p (storage_dir ++ "/papers/" ++ p.arxiv_id) with
  | ok r => simp [stepTransition, transition, hC, GoodOut, savePaperState, he]
  | error e => simp [stepTransition, transition, hC, GoodOut, canMarkFailed, he]

lemma goodOut_stage_extract (C : Collaborators) (p : Paper)
    (d : DownloadResult) (st : RunState) (h : st.wf = PaperState.downloaded)
    (he : st.errors = []) :
    GoodOut (_stage_extract C p d st) := by
  unfold _stage_extract
  rw [h]
  cases hC : C.extract_and_save d.pdf_path (d.save_dir ++ "/extracted")
      (pathStem d.pdf_filename) with
  | ok r => simp [stepTransition, transition, hC, GoodOut, savePaperState, he]
  | error e => simp [stepTransition, transition, hC, GoodOut, canMarkFailed, he]

lemma goodOut_stage_summarize (C : Collaborators) (p : Paper)
    (x : ExtractionResult) (st : RunState) (h : st.wf = PaperState.extracted)
    (he : st.errors = []) :
    GoodOut (_stage_summarize C p x st) := by
  unfold _stage_summarize
  rw [h]
  cases hC : C.summarize_paper p x.content.markdown
      (parentDir (parentDir x.saved_path) ++ "/summaries") with
  | ok r => simp [stepTransition, transition, hC, GoodOut, savePaperState, he]
  | error e => simp [stepTransition, transition, hC, GoodOut, canMarkFailed, he]

lemma goodOut_stage_audio (C : Collaborators) (p : Paper)
    (sm : SummaryResult) (st : RunState) (h : st.wf = PaperState.summarized)
    (he : st.errors = []) :
    GoodOut (_stage_audio C p sm st) := by
  unfold _stage_audio
  rw [h]
  cases hC : C.generate_audio sm.summary_text
      (parentDir (parentDir sm.saved_path) ++ "/audio")
      ((pathStem sm.saved_path).replace "summary_" "") with
  | ok r => simp [stepTransition, transition, hC, GoodOut, savePaperState, he]
  | error e => simp [stepTransition, transition, hC, GoodOut, canMarkFailed, he]

lemma goodOut_downloadPhase (C : Collaborators) (storage_dir : PathStr)
    (p : Paper) (stages : List String) (st : RunState) (he : st.errors = []) :
    GoodOut (downloadPhase C storage_dir p stages st) := by
  unfold downloadPhase
  split
  · next hcond =>
    have hw : st.wf = PaperState.new := by
      have := hcond.2; revert this; cases st.wf <;> simp [can_download]
    exact goodOut_stage_download C storage_dir p st hw he
  · exact ⟨he, by simp⟩

lemma goodOut_extractPhase (C : Collaborators) (storage_dir : PathStr)
    (fs : PaperDirFS) (p : Paper) (stages : List String) (st : RunState)
    (he : st.errors = []) :
    GoodOut (extractPhase C storage_dir fs p stages st) := by
  unfold extractPhase
  split
  · next hcond =>
    have hw : st.wf = PaperState.downloaded := by
      have := hcond.2; revert this; cases st.wf <;> simp [can_extract]
    cases hdl : (lazyDownload storage_dir p fs st).download with
    | some d =>
      simp only [hdl]
      exact goodOut_stage_extract C p d _ (by simp [hw]) (by simp [he])
    | none =>
      simp only [hdl]
      exact ⟨by simp [he], by simp⟩
  · exact ⟨he, by simp⟩

lemma goodOut_summarizePhase (C : Collaborators) (storage_dir : PathStr)
    (fs : PaperDirFS) (p : Paper) (stages : List String) (st : RunState)
    (he : st.errors = []) :
    GoodOut (summarizePhase C storage_dir fs p stages st) := by
  unfold summarizePhase
  split
  · next hcond =>
    have hw : st.wf = PaperState.extracted := by
      have := hcond.2; revert this; cases st.wf <;> simp [can_summarize]
    cases hx : (lazyExtraction storage_dir p fs st).extraction with
    | some x =>
      simp only [hx]
      exact goodOut_stage_summarize C p x _ (by simp [hw]) (by simp [he])
    | none =>
      simp only [hx]
      exact ⟨by simp [he], by simp⟩
  · exact ⟨he, by simp⟩

lemma goodOut_audioPhase (C : Collaborators) (storage_dir : PathStr)
    (fs : PaperDirFS) (p : Paper) (stages : List String) (st : RunState)
    (he : st.errors = []) :
    GoodOut (audioPhase C storage_dir fs p stages st) := by
  unfold audioPhase
  split
  · next hcond =>
    have hw : st.wf = PaperState.summarized := by
      have := hcond.2; revert this; cases st.wf <;> simp [can_generate_audio]
    cases hsm : (lazySummary storage_dir p fs st).summary with
    | some sm =>
      simp only [hsm]
      exact goodOut_stage_audio C p sm _ (by simp [hw]) (by simp [he])
    | none =>
      simp only [hsm]
      exact ⟨by simp [he], by simp⟩
  · exact ⟨he, by simp⟩

lemma goodOut_finalizePhase (st : RunState) (he : st.errors = []) :
    GoodOut (finalizePhase st) := by
  unfold finalizePhase
  split
  · next hcond =>
    have hw : st.wf = PaperState.audio_generated := by
      revert hcond; cases st.wf <;> simp [can_finalize]
    rw [hw]
    simp [stepTransition, transition, GoodOut, savePaperState, he]
  · exact ⟨he, by simp⟩

lemma goodOut_tryBlock (C : Collaborators) (storage_dir : PathStr)
    (fs : PaperDirFS) (p : Paper) (stages : List String) (st0 : RunState)
    (he : st0.errors = []) :
    GoodOut (tryBlock C storage_dir fs p stages st0) := by
  unfold tryBlock
  exact goodOut_andThen (goodOut_andThen (goodOut_andThen (goodOut_andThen
    (goodOut_downloadPhase C storage_dir p stages st0 he)
    (fun st hst => goodOut_extractPhase C storage_dir fs p stages st hst))
    (fun st hst => goodOut_summarizePhase C storage_dir fs p stages st hst))
    (fun st hst => goodOut_audioPhase C storage_dir fs p stages st hst))
    (fun st hst => goodOut_finalizePhase st hst)

lemma mark_failed_yields_failed :
    ∀ s t, transition s .mark_failed = some t → t = PaperState.failed := by
  decide

/-- Behavior of the `except` handler given the `try`-block invariant: it
always returns normally, a non-empty error list implies the machine ended
(and was persisted) in `failed`, and a pending exception becomes exactly
one error entry with the machine `failed`. -/
lemma exceptHandler_good {o : StageOut} (hg : GoodOut o) :
    ∃ r, exceptHandler o = Except.ok r ∧
      (r.errors ≠ [] → r.wf = PaperState.failed ∧
        r.persisted = some PaperState.failed) ∧
      (∀ e, o.exn = some e →
        r.errors = ["Pipeline error: " ++ e] ∧ r.wf = PaperState.failed) := by
  unfold exceptHandler
  cases hexn : o.exn with
  | none =>
    refine ⟨o.st, rfl, fun hne => absurd hg.1 hne, ?_⟩
    intro e h
    exact Option.noConfusion h
  | some e =>
    have hmk := hg.2 e hexn
    unfold canMarkFailed at hmk
    obtain ⟨t, ht⟩ := Option.isSome_iff_exists.mp hmk
    have hte := mark_failed_yields_failed _ _ ht
    subst hte
    refine ⟨savePaperState
      { o.st with errors := o.st.errors ++ ["Pipeline error: " ++ e],
                  wf := PaperState.failed }, ?_, fun _ => ⟨rfl, rfl⟩, ?_⟩
    · dsimp only
      rw [ht]
    · intro e' h'
      injection h' with he
      subst he
      exact ⟨by simp [savePaperState, hg.1], rfl⟩

/-- Full behavior of `process_paper` at its boundary. -/
lemma process_paper_total (C : Collaborators) (storage_dir : PathStr)
    (fs : PaperDirFS) (p : Paper) (stagesArg : Option (List String)) :
    ∃ r, process_paper C storage_dir fs p stagesArg = Except.ok r ∧
      (r.errors ≠ [] → r.wf = PaperState.failed ∧
        r.persisted = some PaperState.failed) ∧
      (∀ e, (tryBlock C storage_dir fs p (normalizeStages stagesArg)
          (initRunState p.status)).exn = some e →
        r.errors = ["Pipeline error: " ++ e] ∧ r.wf = PaperState.failed) :=
  exceptHandler_good (goodOut_tryBlock C storage_dir fs p
    (normalizeStages stagesArg) (initRunState p.status) rfl)

/-- C2: for every paper record and every requested stage subset,
`process_paper` never raises past its own boundary (it returns a run
result), any exception pending from a stage's collaborator call is caught
and turned into exactly one appended error entry with the state machine
left (and persisted) in `failed`, and `resume_paper` behaves the same
way. -/
theorem C2_process_never_raises (C : Collaborators) (storage_dir : PathStr)
    (fs : PaperDirFS) (p : Paper) (stagesArg : Option (List String)) :
    (∃ r, process_paper C storage_dir fs p stagesArg = Except.ok r ∧
      (r.errors ≠ [] → r.wf = PaperState.failed ∧
        r.persisted = some PaperState.failed) ∧
      (∀ e, (tryBlock C storage_dir fs p (normalizeStages stagesArg)
          (initRunState p.status)).exn = some e →
        r.errors = ["Pipeline error: " ++ e] ∧ r.wf = PaperState.failed)) ∧
    (∃ r, resume_paper C storage_dir fs p = Except.ok r ∧
      (r.errors ≠ [] → r.wf = PaperState.failed ∧
        r.persisted = some PaperState.failed)) := by
  refine ⟨process_paper_total C storage_dir fs p stagesArg, ?_⟩
  have gen : ∀ (q : Paper) (sa : Option (List String)),
      ∃ r, process_paper C storage_dir fs q sa = Except.ok r ∧
        (r.errors ≠ [] → r.wf = PaperState.failed ∧
          r.persisted = some PaperState.failed) := by
    intro q sa
    obtain ⟨r, h1, h2, _⟩ := process_paper_total C storage_dir fs q sa
    exact ⟨r, h1, h2⟩
  unfold resume_paper
  cases p.status <;> exact gen _ _

/-- A paper whose status is already `failed` produces a run in which no
guard fires and nothing at all happens. -/
lemma process_paper_from_failed (C : Collaborators) (storage_dir : PathStr)
    (fs : PaperDirFS) (p : Paper) (stagesArg : Option (List String))
    (h : p.status = PaperState.failed) :
    process_paper C storage_dir fs p stagesArg =
      Except.ok (initRunState PaperState.failed) := by
  unfold process_paper exceptHandler tryBlock downloadPhase extractPhase
    summarizePhase audioPhase finalizePhase
  rw [h]
  simp [can_download, can_extract, can_summarize, can_generate_audio,
    can_finalize, andThen, initRunState]

/-- C7: `resume_paper` on a paper whose status is `failed` refuses to
retry: the returned run result executed zero stages — no collaborator was
invoked and no stage result or error was produced. -/
theorem C7_terminal_refusal (C : Collaborators) (storage_dir : PathStr)
    (fs : PaperDirFS) (p : Paper) (h : p.status = PaperState.failed) :
    ∃ r, resume_paper C storage_dir fs p = Except.ok r ∧ r.invoked = [] ∧
      r.download = none ∧ r.extraction = none ∧ r.summary = none ∧
      r.audio = none ∧ r.errors = [] := by
  refine ⟨initRunState PaperState.failed, ?_, rfl, rfl, rfl, rfl, rfl, rfl⟩
  unfold resume_paper
  rw [h]
  exact process_paper_from_failed C storage_dir fs p (some []) h

/-- C10: passing an explicitly empty stage list to `process_paper` is
treated identically to omitting the argument — the falsy `[]` is replaced
by the full default list, so the call behaves exactly like a full-default
run rather than running nothing. -/
theorem C10_empty_stage_list (C : Collaborators) (storage_dir : PathStr)
    (fs : PaperDirFS) (p : Paper) :
    process_paper C storage_dir fs p (some []) =
      process_paper C storage_dir fs p none ∧
    normalizeStages (some []) = ["download", "extract", "summarize", "audio"] :=
  ⟨rfl, rfl⟩

/-!
## Fail-fast containment of a failing summarizer

If the summarizer collaborator raises, the run records exactly one error,
ends failed, and never attempts the audio stage.  The invariant `JOut`
tracks, through the `try` block, that (a) no error entries are recorded
inside the block, (b) while no exception is pending the summarizer has not
been invoked (it can only fail) and the audio stage can only have run with
the machine at `audio_generated` or beyond, and (c) once an exception is
pending with the summarizer among the invoked collaborators, that
exception is the summarizer's, the machine sits at `summarizing`, and the
audio collaborator was never reached.
-/

/-- Invariant on plain run states (no exception pending). -/
def JState (st : RunState) : Prop :=
  st.errors = [] ∧ StageTag.summarize ∉ st.invoked ∧
  ((StageTag.audio ∈ st.invoked ∨ st.audio ≠ none) →
     st.wf = PaperState.audio_generated ∨ st.wf = PaperState.completed)

/-- Invariant on stage outcomes, given that the summarizer always raises
the message `e`. -/
def JOut (e : String) (o : StageOut) : Prop :=
  o.st.errors = [] ∧
  (o.exn = none → StageTag.summarize ∉ o.st.invoked ∧
     ((StageTag.audio ∈ o.st.invoked ∨ o.st.audio ≠ none) →
        o.st.wf = PaperState.audio_generated ∨ o.st.wf = PaperState.completed)) ∧
  (∀ e', o.exn = some e' → StageTag.summarize ∈ o.st.invoked →
     e' = e ∧ o.st.wf = PaperState.summarizing ∧
     StageTag.audio ∉ o.st.invoked ∧ o.st.audio = none)

lemma jState_not_audio {st : RunState} (hj : JState st)
    (hw : st.wf ≠ PaperState.audio_generated)
    (hw' : st.wf ≠ PaperState.completed) :
    StageTag.audio ∉ st.invoked ∧ st.audio = none := by
  constructor
  · intro hmem
    rcases hj.2.2 (Or.inl hmem) with h | h
    · exact hw h
    · exact hw' h
  · by_contra hne
    rcases hj.2.2 (Or.inr hne) with h | h
    · exact hw h
    · exact hw' h

lemma jOut_andThen {e : String} {o : StageOut} {f : RunState → StageOut}
    (h1 : JOut e o) (h2 : ∀ st, JState st → JOut e (f st)) :
    JOut e (andThen o f) := by
  unfold andThen
  cases ho : o.exn with
  | some e' => exact h1
  | none => exact h2 o.st ⟨h1.1, (h1.2.1 ho).1, (h1.2.1 ho).2⟩

lemma jOut_stage_download {e : String} (C : Collaborators)
    (storage_dir : PathStr) (p : Paper) (st : RunState)
    (hw : st.wf = PaperState.new) (hj : JState st) :
    JOut e (_stage_download C storage_dir p st) := by
  obtain ⟨hna, hnf⟩ := jState_not_audio hj (by simp [hw]) (by simp [hw])
  unfold _stage_download
  rw [hw]
  cases hC : C.download_and_save_metadata p (storage_dir ++ "/papers/" ++ p.arxiv_id) with
  | ok r =>
    simp [stepTransition, transition, hC, JOut, savePaperState,
      hj.1, hj.2.1, hna, hnf]
  | error e' =>
    simp [stepTransition, transition, hC, JOut, hj.1, hj.2.1]

lemma jOut_stage_extract {e : String} (C : Collaborators) (p : Paper)
    (d : DownloadResult) (st : RunState)
    (hw : st.wf = PaperState.downloaded) (hj : JState st) :
    JOut e (_stage_extract C p d st) := by
  obtain ⟨hna, hnf⟩ := jState_not_audio hj (by simp [hw]) (by simp [hw])
  unfold _stage_extract
  rw [hw]
  cases hC : C.extract_and_save d.pdf_path (d.save_dir ++ "/extracted")
      (pathStem d.pdf_filename) with
  | ok r =>
    simp [stepTransition, transition, hC, JOut, savePaperState,
      hj.1, hj.2.1, hna, hnf]
  | error e' =>
    simp [stepTransition, transition, hC, JOut, hj.1, hj.2.1]

lemma jOut_stage_summarize {e : String} (C : Collaborators) (p : Paper)
    (x : ExtractionResult) (st : RunState)
    (hS : ∀ pa txt dir, C.summarize_paper pa txt dir = Except.error e)
    (hw : st.wf = PaperState.extracted) (hj : JState st) :
    JOut e (_stage_summarize C p x st) := by
  obtain ⟨hna, hnf⟩ := jState_not_audio hj (by simp [hw]) (by simp [hw])
  unfold _stage_summarize
  rw [hw]
  simp [stepTransition, transition, hS, JOut, hj.1, hna, hnf]

lemma jOut_stage_audio {e : String} (C : Collaborators) (p : Paper)
    (sm : SummaryResult) (st : RunState)
    (hw : st.wf = PaperState.summarized) (hj : JState st) :
    JOut e (_stage_audio C p sm st) := by
  obtain ⟨hna, hnf⟩ := jState_not_audio hj (by simp [hw]) (by simp [hw])
  unfold _stage_audio
  rw [hw]
  cases hC : C.generate_audio sm.summary_text
      (parentDir (parentDir sm.saved_path) ++ "/audio")
      ((pathStem sm.saved_path).replace "summary_" "") with
  | ok r =>
    simp [stepTransition, transition, hC, JOut, savePaperState,
      hj.1, hj.2.1]
  | error e' =>
    simp [stepTransition, transition, hC, JOut, hj.1, hj.2.1]

lemma jOut_downloadPhase {e : String} (C : Collaborators)
    (storage_dir : PathStr) (p : Paper) (stages : List String)
    (st : RunState) (hj : JState st) :
    JOut e (downloadPhase C storage_dir p stages st) := by
  unfold downloadPhase
  split
  · next hcond =>
    have hw : st.wf = PaperState.new := by
      have := hcond.2; revert this; cases st.wf <;> simp [can_download]
    exact jOut_stage_download C storage_dir p st hw hj
  · exact ⟨hj.1, fun _ => ⟨hj.2.1, hj.2.2⟩, by simp⟩

lemma jState_lazyDownload (storage_dir : PathStr) (p : Paper)
    (fs : PaperDirFS) (st : RunState) (hj : JState st) :
    JState (lazyDownload storage_dir p fs st) := by
  unfold JState
  simp only [lazyDownload_errors, lazyDownload_invoked, lazyDownload_audio,
    lazyDownload_wf]
  exact hj

lemma jState_lazyExtraction (storage_dir : PathStr) (p : Paper)
    (fs : PaperDirFS) (st : RunState) (hj : JState st) :
    JState (lazyExtraction storage_dir p fs st) := by
  unfold JState
  simp only [lazyExtraction_errors, lazyExtraction_invoked,
    lazyExtraction_audio, lazyExtraction_wf]
  exact hj

lemma jState_lazySummary (storage_dir : PathStr) (p : Paper)
    (fs : PaperDirFS) (st : RunState) (hj : JState st) :
    JState (lazySummary storage_dir p fs st) := by
  unfold JState
  simp only [lazySummary_errors, lazySummary_invoked, lazySummary_audio,
    lazySummary_wf]
  exact hj

lemma jOut_extractPhase {e : String} (C : Collaborators)
    (storage_dir : PathStr) (fs : PaperDirFS) (p : Paper)
    (stages : List String) (st : RunState) (hj : JState st) :
    JOut e (extractPhase C storage_dir fs p stages st) := by
  unfold extractPhase
  split
  · next hcond =>
    have hw : st.wf = PaperState.downloaded := by
      have := hcond.2; revert this; cases st.wf <;> simp [can_extract]
    have hj' := jState_lazyDownload storage_dir p fs st hj
    cases hdl : (lazyDownload storage_dir p fs st).download with
    | some d =>
      simp only [hdl]
      exact jOut_stage_extract C p d _ (by simp [hw]) hj'
    | none =>
      simp only [hdl]
      exact ⟨hj'.1, fun _ => ⟨hj'.2.1, hj'.2.2⟩, by simp⟩
  · exact ⟨hj.1, fun _ => ⟨hj.2.1, hj.2.2⟩, by simp⟩

lemma jOut_summarizePhase {e : String} (C : Collaborators)
    (storage_dir : PathStr) (fs : PaperDirFS) (p : Paper)
    (stages : List String) (st : RunState)
    (hS : ∀ pa txt dir, C.summarize_paper pa txt dir = Except.error e)
    (hj : JState st) :
    JOut e (summarizePhase C storage_dir fs p stages st) := by
  unfold summarizePhase
  split
  · next hcond =>
    have hw : st.wf = PaperState.extracted := by
      have := hcond.2; revert this; cases st.wf <;> simp [can_summarize]
    have hj' := jState_lazyExtraction storage_dir p fs st hj
    cases hx : (lazyExtraction storage_dir p fs st).extraction with
    | some x =>
      simp only [hx]
      exact jOut_stage_summarize C p x _ hS (by simp [hw]) hj'
    | none =>
      simp only [hx]
      exact ⟨hj'.1, fun _ => ⟨hj'.2.1, hj'.2.2⟩, by simp⟩
  · exact ⟨hj.1, fun _ => ⟨hj.2.1, hj.2.2⟩, by simp⟩

lemma jOut_audioPhase {e : String} (C : Collaborators)
    (storage_dir : PathStr) (fs : PaperDirFS) (p : Paper)
    (stages : List String) (st : RunState) (hj : JState st) :
    JOut e (audioPhase C storage_dir fs p stages st) := by
  unfold audioPhase
  split
  · next hcond =>
    have hw : st.wf = PaperState.summarized := by
      have := hcond.2; revert this; cases st.wf <;> simp [can_generate_audio]
    have hj' := jState_lazySummary storage_dir p fs st hj
    cases hsm : (lazySummary storage_dir p fs st).summary with
    | some sm =>
      simp only [hsm]
      exact jOut_stage_audio C p sm _ (by simp [hw]) hj'
    | none =>
      simp only [hsm]
      exact ⟨hj'.1, fun _ => ⟨hj'.2.1, hj'.2.2⟩, by simp⟩
  · exact ⟨hj.1, fun _ => ⟨hj.2.1, hj.2.2⟩, by simp⟩

lemma jOut_finalizePhase {e : String} (st : RunState) (hj : JState st) :
    JOut e (finalizePhase st) := by
  unfold finalizePhase
  split
  · next hcond =>
    have hw : st.wf = PaperState.audio_generated := by
      revert hcond; cases st.wf <;> simp [can_finalize]
    rw [hw]
    simp [stepTransition, transition, JOut, savePaperState, hj.1, hj.2.1]
  · exact ⟨hj.1, fun _ => ⟨hj.2.1, hj.2.2⟩, by simp⟩

lemma jOut_tryBlock {e : String} (C : Collaborators)
    (storage_dir : PathStr) (fs : PaperDirFS) (p : Paper)
    (stages : List String) (st0 : RunState)
    (hS : ∀ pa txt dir, C.summarize_paper pa txt dir = Except.error e)
    (hj : JState st0) :
    JOut e (tryBlock C storage_dir fs p stages st0) := by
  unfold tryBlock
  exact jOut_andThen (jOut_andThen (jOut_andThen (jOut_andThen
    (jOut_downloadPhase C storage_dir p stages st0 hj)
    (fun st hst => jOut_extractPhase C storage_dir fs p stages st hst))
    (fun st hst => jOut_summarizePhase C storage_dir fs p stages st hS hst))
    (fun st hst => jOut_audioPhase C storage_dir fs p stages st hst))
    (fun st hst => jOut_finalizePhase st hst)

lemma exceptHandler_jOut {e : String} {o : StageOut} {r : RunState}
    (hj : JOut e o) (hok : exceptHandler o = Except.ok r)
    (hmem : StageTag.summarize ∈ r.invoked) :
    r.errors = ["Pipeline error: " ++ e] ∧ r.wf = PaperState.failed ∧
      r.persisted = some PaperState.failed ∧
      StageTag.audio ∉ r.invoked ∧ r.audio = none := by
  unfold exceptHandler at hok
  cases hexn : o.exn with
  | none =>
    rw [hexn] at hok
    injection hok with hr
    subst hr
    exact absurd hmem (hj.2.1 hexn).1
  | some e' =>
    rw [hexn] at hok
    dsimp only at hok
    cases hmk : transition o.st.wf Event.mark_failed with
    | none => rw [hmk] at hok; cases hok
    | some t =>
      have hte := mark_failed_yields_failed _ _ hmk
      subst hte
      rw [hmk] at hok
      injection hok with hr
      subst hr
      have hmem' : StageTag.summarize ∈ o.st.invoked := hmem
      obtain ⟨hee, _, hna, hnf⟩ := hj.2.2 e' hexn hmem'
      subst hee
      refine ⟨by simp [savePaperState, hj.1], rfl, rfl, hna, hnf⟩

/-- C6: for every run in which the summarizer collaborator raises, the
returned run result contains exactly one error entry, the status becomes
(and is persisted as) `failed`, and the audio stage is not attempted in
that invocation — the audio collaborator is never invoked and no audio
result is produced. -/
theorem C6_summarizer_failure_contained (C : Collaborators)
    (storage_dir : PathStr) (fs : PaperDirFS) (p : Paper)
    (stagesArg : Option (List String)) (e : String) (r : RunState)
    (hS : ∀ pa txt dir, C.summarize_paper pa txt dir = Except.error e)
    (hok : process_paper C storage_dir fs p stagesArg = Except.ok r)
    (hmem : StageTag.summarize ∈ r.invoked) :
    r.errors = ["Pipeline error: " ++ e] ∧ r.wf = PaperState.failed ∧
      r.persisted = some PaperState.failed ∧
      StageTag.audio ∉ r.invoked ∧ r.audio = none := by
  unfold process_paper at hok
  exact exceptHandler_jOut
    (jOut_tryBlock C storage_dir fs p (normalizeStages stagesArg)
      (initRunState p.status) hS (by simp [initRunState, JState]))
    hok hmem

/-- C5: for a paper whose status is `extracted`, whose download and
extraction artifacts exist on disk at their conventional paths, and with
no in-memory stage results, `process_paper` with stages `["summarize"]`
succeeds: it produces a summary stage result, invokes only the summarizer
collaborator (never the download or extraction collaborators), and the
extraction result it feeds the summarizer is reconstructed by reading the
first markdown artifact back from storage. -/
theorem C5_reconstruction (C : Collaborators) (storage_dir : PathStr)
    (fs : PaperDirFS) (p : Paper) (md : TextFileEntry)
    (mds : List TextFileEntry) (sres : SummaryResult)
    (hstatus : p.status = PaperState.extracted)
    (hdir : fs.dirExists = true)
    (hpdf : fs.pdfFiles ≠ []) (hjson : fs.jsonFiles ≠ [])
    (hedir : fs.extractedDirExists = true)
    (hmd : fs.mdFiles = md :: mds)
    (hS : ∀ dir, C.summarize_paper p md.content dir = Except.ok sres) :
    process_paper C storage_dir fs p (some ["summarize"]) = Except.ok
      { wf := PaperState.summarized
      , download := none
      , extraction := some
          { content := ⟨md.content⟩
          , saved_path := storage_dir ++ "/papers/" ++ p.arxiv_id
              ++ "/extracted/" ++ md.name
          , extracted_at := md.mtime
          , character_count := md.content.length }
      , summary := some sres
      , audio := none
      , errors := []
      , invoked := [StageTag.summarize]
      , persisted := some PaperState.summarized } := by
  unfold process_paper exceptHandler tryBlock downloadPhase extractPhase
    summarizePhase audioPhase finalizePhase
  rw [hstatus]
  unfold lazyExtraction _load_extraction_result _stage_summarize
  simp [can_download, can_extract, can_summarize, can_generate_audio,
    can_finalize, andThen, initRunState, hedir, hmd, hS, stepTransition,
    transition, savePaperState, normalizeStages]

/-!
## Concrete inputs for the witnesses
-/

/-- A concrete paper record, in state `extracted`. -/
def samplePaper : Paper :=
  ⟨"2301.12345", "A Paper", [⟨"Ann", none⟩], "abs", 1, 2, ["cs.AI"], "cs.AI",
   "http://x", none, none, none, none, none, none, .extracted, "unlistened",
   none⟩

/-- A concrete artifact directory holding download artifacts and one
extracted markdown file. -/
def sampleFS : PaperDirFS :=
  ⟨true, [⟨"p.pdf", 5⟩], [⟨"p.json", 5⟩], true, [⟨"p.md", "md content", 6⟩],
   false, [], false, []⟩

/-- A concrete summary result returned by the witness summarizer. -/
def sampleSummary : SummaryResult :=
  ⟨"sum", "data/papers/2301.12345/summaries/summary_p.txt", 9⟩

/-- Collaborators that all succeed; the summarizer returns
`sampleSummary` whatever its arguments. -/
def witCollabs : Collaborators :=
  ⟨fun _ dir => .ok ⟨dir ++ "/p.pdf", dir ++ "/p.json", dir, "p.pdf",
      "p.json", 7⟩,
   fun pp _ _ => .ok ⟨⟨"extracted md"⟩, pp, 8, 12⟩,
   fun _ _ _ => .ok sampleSummary,
   fun _ dir base => .ok ⟨dir ++ "/" ++ base ++ ".mp3", 10, none⟩⟩

/-- Collaborators whose summarizer always raises "boom". -/
def failSummarizer : Collaborators :=
  ⟨fun _ dir => .ok ⟨dir ++ "/p.pdf", dir ++ "/p.json", dir, "p.pdf",
      "p.json", 7⟩,
   fun pp _ _ => .ok ⟨⟨"extracted md"⟩, pp, 8, 12⟩,
   fun _ _ _ => .error "boom",
   fun _ dir base => .ok ⟨dir ++ "/" ++ base ++ ".mp3", 10, none⟩⟩

/-- The run result of the C6 witness scenario. -/
def c6run : RunState :=
  ⟨.failed, none,
   some ⟨⟨"md content"⟩, "data/papers/2301.12345/extracted/p.md", 6, 10⟩,
   none, none, ["Pipeline error: boom"], [.summarize], some .failed⟩

/-- Witness for C5 at the concrete scenario. -/
theorem C5_reconstruction_witness :
    process_paper witCollabs "data" sampleFS samplePaper (some ["summarize"])
      = Except.ok
      { wf := PaperState.summarized
      , download := none
      , extraction := some
          { content := ⟨"md content"⟩
          , saved_path := "data/papers/2301.12345/extracted/p.md"
          , extracted_at := 6
          , character_count := 10 }
      , summary := some sampleSummary
      , audio := none
      , errors := []
      , invoked := [StageTag.summarize]
      , persisted := some PaperState.summarized } :=
  C5_reconstruction witCollabs "data" sampleFS samplePaper
    ⟨"p.md", "md content", 6⟩ [] sampleSummary rfl rfl (by decide) (by decide)
    rfl rfl (fun _ => rfl)

/-- Witness for C6 at the concrete scenario. -/
theorem C6_summarizer_failure_contained_witness :
    (∀ pa txt dir, failSummarizer.summarize_paper pa txt dir =
        Except.error "boom") ∧
    StageTag.summarize ∈ c6run.invoked ∧
    (c6run.errors = ["Pipeline error: " ++ "boom"] ∧
      c6run.wf = PaperState.failed ∧
      c6run.persisted = some PaperState.failed ∧
      StageTag.audio ∉ c6run.invoked ∧ c6run.audio = none) :=
  ⟨fun _ _ _ => rfl, by decide,
    C6_summarizer_failure_contained failSummarizer "data" sampleFS samplePaper
      (some ["summarize"]) "boom" c6run (fun _ _ _ => rfl) rfl (by decide)⟩

/-- Witness for C7 at a concrete failed paper. -/
theorem C7_terminal_refusal_witness :
    ∃ r, resume_paper witCollabs "data" sampleFS
        { samplePaper with status := PaperState.failed } = Except.ok r ∧
      r.invoked = [] ∧ r.download = none ∧ r.extraction = none ∧
      r.summary = none ∧ r.audio = none ∧ r.errors = [] :=
  C7_terminal_refusal witCollabs "data" sampleFS
    { samplePaper with status := PaperState.failed } rfl

/-!
## Persistence layer (src/models/paper.py)

`save_to_disk` writes the `to_dict` JSON document to
`{storage_dir}/papers/{cleaned_title}/paper_state.json`; `load_from_disk`
cleans the given title and reads the document back through `from_dict`.
The store is modelled as a map from the directory key (the cleaned name
under `papers/`) to the parsed state document; the JSON text itself is
abstracted away since `json.dump`/`json.load` round-trip the dictionary
and `datetime.isoformat`/`fromisoformat` round-trip the timestamps. -/

/-- The invalid filename characters removed by `clean_filename`
(paper.py, line 65). -/
def invalid_chars : List Char := ['/', '\\', ':', '*', '?', '"', '<', '>', '|']

/-- Python `str.split()` with no separator: the maximal runs of
non-whitespace characters, with no empty parts. -/
def splitWs : List Char → List Char → List (List Char)
  | [], acc => if acc = [] then [] else [acc.reverse]
  | c :: rest, acc =>
    if c.isWhitespace then
      if acc = [] then splitWs rest []
      else acc.reverse :: splitWs rest []
    else splitWs rest (c :: acc)

/-- `Paper.clean_filename` (paper.py, lines 50-77) with the default
`max_length = 200`: replace invalid characters with underscores, collapse
whitespace runs to single spaces (`' '.join(cleaned.split())`), replace
spaces with underscores, and truncate to 200 characters.  Strings are
processed as their character lists. -/
def clean_filename (title : String) : String :=
  let replaced := title.toList.map fun c => if c ∈ invalid_chars then '_' else c
  let words := splitWs replaced []
  let joined := List.intercalate [' '] words
  let underscored := joined.map fun c => if c = ' ' then '_' else c
  String.mk (underscored.take 200)

/-- `Paper.cleaned_title` (paper.py, lines 79-82). -/
def Paper.cleaned_title (p : Paper) : String :=
  clean_filename p.title

/-- The version-stripping of `Paper.__post_init__` (paper.py, lines
44-48): `arxiv_id.split('v')[0]`, everything before the first `v`, if
any. -/
def stripVersion (s : String) : String :=
  if 'v' ∈ s.toList then String.mk (s.toList.takeWhile (fun c => c ≠ 'v'))
  else s

/-- `Paper.__post_init__` applied to a freshly constructed record. -/
def postInit (p : Paper) : Paper :=
  { p with arxiv_id := stripVersion p.arxiv_id }

/-- The `Paper.pdf_path` property (paper.py, lines 99-104); `None`/empty
strings are falsy in the Python condition. -/
def Paper.pdf_path (p : Paper) : Option String :=
  match p.save_dir, p.pdf_filename with
  | some sd, some pf => if sd ≠ "" ∧ pf ≠ "" then some (sd ++ "/" ++ pf)
      else none
  | _, _ => none

/-- The parsed `paper_state.json` document, field for field as
`Paper.to_dict` (paper.py, lines 128-150) writes it. -/
structure PaperDict where
  arxiv_id : String
  title : String
  authors : List Author
  abstract : String
  published : DateTime
  updated : DateTime
  categories : List String
  primary_category : String
  pdf_url : String
  comment : Option String
  journal_ref : Option String
  doi : Option String
  downloaded_at : Option DateTime
  save_dir : Option String
  pdf_filename : Option String
  pdf_path : Option String
  status : PaperState
  listen_status : String
  last_listened_at : Option DateTime
deriving DecidableEq, Repr

/-- `Paper.to_dict` (paper.py, lines 128-150). -/
def Paper.to_dict (p : Paper) : PaperDict :=
  ⟨p.arxiv_id, p.title, p.authors, p.abstract, p.published, p.updated,
   p.categories, p.primary_category, p.pdf_url, p.comment, p.journal_ref,
   p.doi, p.downloaded_at, p.save_dir, p.pdf_filename, p.pdf_path, p.status,
   p.listen_status, p.last_listened_at⟩

/-- `Paper.from_dict` (paper.py, lines 152-169): the computed `pdf_path`
entry is dropped, the remaining fields construct a `Paper`, and
`__post_init__` re-strips the version suffix. -/
def Paper.from_dict (d : PaperDict) : Paper :=
  postInit ⟨d.arxiv_id, d.title, d.authors, d.abstract, d.published,
    d.updated, d.categories, d.primary_category, d.pdf_url, d.comment,
    d.journal_ref, d.doi, d.downloaded_at, d.save_dir, d.pdf_filename,
    d.status, d.listen_status, d.last_listened_at⟩

/-- The state-document store: directory key under `{storage_dir}/papers/`
to the parsed document at `.../paper_state.json`. -/
def StateFS := String → Option PaperDict

/-- A store with no state documents. -/
def emptyStateFS : StateFS := fun _ => none

/-- `Paper.save_to_disk` (paper.py, lines 171-188): writes the document
under the key `cleaned_title`, overwriting any existing document. -/
def Paper.save_to_disk (p : Paper) (fs : StateFS) : StateFS :=
  fun k => if k = p.cleaned_title then some p.to_dict else fs k

/-- `Paper.load_from_disk` (paper.py, lines 190-211): cleans the given
title, returns the parsed document if present, else `none`. -/
def Paper.load_from_disk (title : String) (fs : StateFS) : Option Paper :=
  (fs (clean_filename title)).map Paper.from_dict

/-- `PaperPipeline.load_paper` (paper_pipeline.py, lines 554-575): passes
the arxiv id where `load_from_disk` expects a title. -/
def load_paper (arxiv_id : String) (fs : StateFS) : Option Paper :=
  Paper.load_from_disk arxiv_id fs

/-- C8: saving a paper record and loading it back with the same identity
(its title) returns a record equal in all fields, status included.  The
hypothesis states the constructor invariant `__post_init__` guarantees for
every Python `Paper`: its stored `arxiv_id` is already version-stripped. -/
theorem C8_save_load_round_trip (fs : StateFS) (p : Paper)
    (h : stripVersion p.arxiv_id = p.arxiv_id) :
    Paper.load_from_disk p.title (Paper.save_to_disk p fs) = some p := by
  unfold Paper.load_from_disk Paper.save_to_disk Paper.cleaned_title
  rw [if_pos rfl]
  cases p with
  | mk aid ti au ab pu up ca pc ur co jr dI da sd pf stt ls ll =>
    simp only at h
    simp [Paper.from_dict, Paper.to_dict, postInit, h]

/-- Witness for C8 at the concrete sample paper over an empty store. -/
theorem C8_save_load_round_trip_witness :
    stripVersion samplePaper.arxiv_id = samplePaper.arxiv_id ∧
    Paper.load_from_disk samplePaper.title
      (Paper.save_to_disk samplePaper emptyStateFS) = some samplePaper :=
  ⟨by decide, C8_save_load_round_trip emptyStateFS samplePaper (by decide)⟩

/-- A paper on which C9's claim, as stated, fails: its cleaned title
`A_B` differs from its arxiv id `A B`, yet `load_paper` cleans the arxiv
id to the same key `A_B` and finds the freshly saved document. -/
def cexPaper : Paper :=
  ⟨"A B", "A/B", [], "a", 1, 2, [], "x", "u", none, none, none, none, none,
   none, .new, "unlistened", none⟩

/-- C9 counterexample: the claim quantifies over every paper whose
cleaned title differs from its arxiv id and asserts `load_paper` then
returns `none`; for `cexPaper` the cleaned title differs from the arxiv
id, yet `load_paper` succeeds immediately after a save, because the
lookup key is the CLEANED arxiv id, which collides with the cleaned
title. -/
theorem C9_counterexample :
    clean_filename cexPaper.title ≠ cexPaper.arxiv_id ∧
    load_paper cexPaper.arxiv_id
      (Paper.save_to_disk cexPaper emptyStateFS) ≠ none := by
  decide

/-- C9 amended: the state document is keyed by the cleaned title while
`load_paper` looks up the cleaned arxiv id, so for every paper whose
cleaned title differs from its CLEANED arxiv id (and any store with no
unrelated document at that key), `load_paper arxiv_id` returns `none`
immediately after the orchestrator persisted the paper's state. -/
theorem C9_identity_key_mismatch (p : Paper) (fs : StateFS)
    (h : clean_filename p.title ≠ clean_filename p.arxiv_id)
    (hfs : fs (clean_filename p.arxiv_id) = none) :
    load_paper p.arxiv_id (Paper.save_to_disk p fs) = none := by
  unfold load_paper Paper.load_from_disk Paper.save_to_disk
    Paper.cleaned_title
  rw [if_neg (fun hc => h hc.symm)]
  simp [hfs]

/-- Witness for the amended C9 at the sample paper, whose cleaned title
`A_Paper` differs from its cleaned arxiv id `2301.12345`. -/
theorem C9_identity_key_mismatch_witness :
    clean_filename samplePaper.title ≠ clean_filename samplePaper.arxiv_id ∧
    emptyStateFS (clean_filename samplePaper.arxiv_id) = none ∧
    load_paper samplePaper.arxiv_id
      (Paper.save_to_disk samplePaper emptyStateFS) = none :=
  ⟨by decide, rfl,
    C9_identity_key_mismatch samplePaper emptyStateFS (by decide) rfl⟩

end PaperPodcasts
